import Mathlib

/-!
Shallow embedding of the snapshot-orchestration core of `src/app.py`
(`create_snapshot_gui`).  External effects — subprocess execution, the
file system, JSON parsing of provider responses, and wall-clock time —
are modelled as an explicit environment (`Env`); the control flow of
every embedded function mirrors the Python source line by line.
Uncaught Python exceptions are modelled as `none` results.
-/

namespace App

/-- Python whitespace, as used by `str.strip` and argument-less `str.split`. -/
def pyIsSpace (c : Char) : Bool :=
  c == ' ' || c == '\t' || c == '\n' || c == '\x0d' || c == '\x0b' || c == '\x0c'

/-- Python `str.strip()`: drop leading and trailing whitespace. -/
def pyStrip (s : String) : String :=
  ⟨((s.data.dropWhile pyIsSpace).reverse.dropWhile pyIsSpace).reverse⟩

/-- Python `str.lower()` (ASCII case folding suffices for the spec's inputs). -/
def pyLower (s : String) : String :=
  ⟨s.data.map Char.toLower⟩

/-- Substring test on character lists: does `needle` occur inside `hay`? -/
def containsSub (needle : List Char) : List Char → Bool
  | [] => needle.isEmpty
  | c :: rest => needle.isPrefixOf (c :: rest) || containsSub needle rest

/-- Python `needle in hay` for strings. -/
def pyIn (needle hay : String) : Bool :=
  containsSub needle.data hay.data

/-- Worker for `pySplit`: `cur` holds the characters of the token being
built, in reverse. -/
def pySplitAux (cur : List Char) : List Char → List String
  | [] => if cur.isEmpty then [] else [⟨cur.reverse⟩]
  | c :: rest =>
    if pyIsSpace c then
      if cur.isEmpty then pySplitAux [] rest
      else ⟨cur.reverse⟩ :: pySplitAux [] rest
    else pySplitAux (c :: cur) rest

/-- Python argument-less `str.split()`: split on whitespace runs, dropping
empty tokens. -/
def pySplit (s : String) : List String :=
  pySplitAux [] s.data

/-- Worker for `pySplitSlash`. -/
def splitSlashAux (cur : List Char) : List Char → List String
  | [] => [⟨cur.reverse⟩]
  | c :: rest =>
    if c = '/' then ⟨cur.reverse⟩ :: splitSlashAux [] rest
    else splitSlashAux (c :: cur) rest

/-- Python `str.split("/")`: split at every `/`, keeping empty pieces
(`"".split("/") == [""]`). -/
def pySplitSlash (s : String) : List String :=
  splitSlashAux [] s.data

/-- Structure `CommandResult`: captured output of one external process invocation
(`stdout`, `stderr`, `returncode`), before the executor's `.strip()`. -/
structure CommandResult where
  stdout : String
  stderr : String
  returncode : Int
deriving DecidableEq, Repr

/-- The retry loop body of `run_az_command` (src/app.py:53-67).  `attempt` is
the Python loop index; `remaining` is the number of retries still allowed
after the current attempt (`max_retries - 1 - attempt`).  Returns the tuple
`(stdout, stderr, returncode)` the Python function returns, paired with the
number of times the command was invoked.  The attempt results of the external
command are supplied by the script `Nat → CommandResult`. -/
def run_az_loop (script : Nat → CommandResult) (attempt : Nat) :
    Nat → (String × String × Int) × Nat
  | 0 =>
    let r := script attempt
    if r.returncode = 0 then
      ((pyStrip r.stdout, pyStrip r.stderr, r.returncode), attempt + 1)
    else
      (("", pyStrip r.stderr, r.returncode), attempt + 1)
  | rem + 1 =>
    let r := script attempt
    if r.returncode = 0 then
      ((pyStrip r.stdout, pyStrip r.stderr, r.returncode), attempt + 1)
    else
      run_az_loop script (attempt + 1) rem

/-- Embeds `run_az_command(command, max_retries, delay)` (src/app.py:52-68) with the
command's successive attempt results abstracted as `script`.  With
`max_retries = 0` the Python `for` loop never runs and the trailing
`return "", stderr.decode()...` raises `NameError` (`stderr` unbound),
modelled as `none`. -/
def run_az_command (script : Nat → CommandResult) (max_retries : Nat) :
    Option ((String × String × Int) × Nat) :=
  match max_retries with
  | 0 => none
  | mr + 1 => some (run_az_loop script 0 mr)

/-- Shorthand for `run_az_command` at its default `max_retries = 3` (always returns),
dropping the invocation count.  Every call site in `main`/`process_vm` uses
the default. -/
def run_az3 (script : Nat → CommandResult) : String × String × Int :=
  (run_az_loop script 0 2).1

/-- The global `inventory_file` path (src/app.py:14). -/
def inventory_file : String := "linux_vm-inventory.csv"

/-- Embeds `get_vm_info(hostname, inventory_file)` (src/app.py:18-23): first
inventory line containing `hostname` as a substring, stripped; `None` when no
line matches.  The inventory file's content is modelled as its list of lines
(newline terminators removed; hostnames never contain a newline, so the
substring test is unaffected). -/
def get_vm_info (hostname : String) (invLines : List String) : Option String :=
  match invLines.find? (fun line => pyIn hostname line) with
  | some line => some (pyStrip line)
  | none => none

/-- The per-hostname loop of `extract_vm_info` (src/app.py:36-45); returns
`(vm_list, excluded_vms)`.  A matched-but-blank line is falsy in Python
(`if vm_info:`), so it falls to the warning branch like a miss. -/
def resolveHosts (invLines exclude_keywords : List String) :
    List String → List String × List String
  | [] => ([], [])
  | hostname :: rest =>
    match get_vm_info hostname invLines with
    | some vm_info =>
      if vm_info = "" then
        resolveHosts invLines exclude_keywords rest
      else
        let r := resolveHosts invLines exclude_keywords rest
        if !exclude_keywords.isEmpty &&
            exclude_keywords.any (fun k => pyIn (pyLower k) (pyLower vm_info)) then
          (r.1, hostname :: r.2)
        else
          (vm_info :: r.1, r.2)
    | none => resolveHosts invLines exclude_keywords rest

/-- Embeds `extract_vm_info(host_file, exclude_keywords)` (src/app.py:25-50).
`inv`/`host` are the contents of the inventory and host-list files, `none`
when the file does not exist.  The returned triple is `(vm_list, error)` as
in the source, extended with the `excluded_vms` list that the source prints
as its exclusion diagnostic (src/app.py:47-48). -/
def extract_vm_info (inv : Option (List String)) (host_file : String)
    (host : Option (List String)) (exclude_keywords : List String) :
    Option (List String) × Option String × List String :=
  match inv with
  | none =>
    (none, some ("Error: Inventory file \x27" ++ inventory_file ++ "\x27 not found."), [])
  | some invLines =>
    match host with
    | none =>
      (none, some ("Error: List file \x27" ++ host_file ++ "\x27 not found."), [])
    | some hostnames =>
      let r := resolveHosts invLines exclude_keywords hostnames
      (some r.1, none, r.2)

/-- Grouping result: association list from subscription id to the VMs of that
subscription, keyed in first-insertion order (Python dicts preserve insertion
order). -/
abbrev Groups := List (String × List (String × String))

/-- Embeds `grouped_vms[subscription_id].append((resource_id, vm_name))` on a
`defaultdict(list)` (src/app.py:127). -/
def addToGroup : Groups → String → String × String → Groups
  | [], sid, v => [(sid, [v])]
  | (k, vs) :: rest, sid, v =>
    if k = sid then (k, vs ++ [v]) :: rest
    else (k, vs) :: addToGroup rest sid v

/-- The loop of `group_vms_by_subscription` (src/app.py:124-127).  A line
that does not `split()` into exactly two tokens raises `ValueError`
(unpacking), and a resource id with fewer than three `/`-separated segments
raises `IndexError`; both are modelled as `none`. -/
def groupAux (acc : Groups) : List String → Option Groups
  | [] => some acc
  | line :: rest =>
    match pySplit line with
    | [resource_id, vm_name] =>
      match (pySplitSlash resource_id).get? 2 with
      | some subscription_id =>
        groupAux (addToGroup acc subscription_id (resource_id, vm_name)) rest
      | none => none
    | _ => none

/-- Embeds `group_vms_by_subscription(vm_list)` (src/app.py:122-128). -/
def group_vms_by_subscription (vm_list : List String) : Option Groups :=
  groupAux [] vm_list

/-- The identity command (src/app.py:81-83). -/
def az_user_cmd : String := "az account show --query user.name -o tsv"

/-- The subscription-switch command (src/app.py:166). -/
def az_sub_cmd (subscription_id : String) : String :=
  "az account set --subscription " ++ subscription_id

/-- The VM-detail query command (src/app.py:180). -/
def az_vmshow_cmd (resource_id : String) : String :=
  "az vm show --ids " ++ resource_id ++
    " --query \x27\x7bresourceGroup:resourceGroup, diskId:storageProfile.osDisk.managedDisk.id\x7d\x27 -o json"

/-- The snapshot-create command (src/app.py:101). -/
def az_snap_cmd (snap_name resource_group disk_id user_id : String) : String :=
  "az snapshot create --name " ++ snap_name ++ " --resource-group " ++
    resource_group ++ " --source " ++ disk_id ++ " --tags CreatedByUserId=" ++
    user_id ++ " drtier=NR"

/-- The snapshot-naming expression `f"RH_\x7bchg_number\x7d_\x7bvm_name\x7d_\x7btimestamp\x7d"`
(src/app.py:96). -/
def snapshot_name (chg_number vm_name timestamp : String) : String :=
  "RH_" ++ chg_number ++ "_" ++ vm_name ++ "_" ++ timestamp

/-- A line of `snap_rid_list.txt` as written by `write_snapshot_rid`
(src/app.py:76-78). -/
structure SnapshotRecord where
  snapshot_id : String
  snap_name : String
  expiration_date : String
  user_id : String
deriving DecidableEq, Repr

/-- The external world of one run.  `exec` gives, for every command string,
the attempt script consumed by `run_az_command`; `inventoryLines` and
`hostLines` are file contents (`none` = file absent); `parseVmDetails` is
`json.loads(stdout)` followed by `['resourceGroup']`/`['diskId']` access
(`none` = an uncaught parse/`KeyError` exception); `parseSnap` is
`json.loads(stdout)` followed by `.get('id')` (outer `none` = `json.loads`
raises, inner option = the `id` field); `expiration_stamp` is
`(now + timedelta(days=TTL_DURATION)).strftime('%Y-%m-%d')` and `run_stamp`
is `datetime.now().strftime('%Y%m%d%H%M%S')` (src/app.py:97, 138). -/
structure Env where
  exec : String → Nat → CommandResult
  inventoryLines : Option (List String)
  hostLines : Option (List String)
  parseVmDetails : String → Option (String × String)
  parseSnap : String → Option (Option String)
  expiration_stamp : String
  run_stamp : String

/-- Embeds `get_current_user_id()` (src/app.py:80-88): `none` when the identity
command fails after retries. -/
def get_current_user_id (env : Env) : Option String :=
  let r := run_az3 (env.exec az_user_cmd)
  if r.2.2 ≠ 0 then none else some (pyStrip r.1)

/-- Embeds `process_vm(...)` (src/app.py:90-120).  Returns the `(vm_name, result)`
pair together with the records this worker appends to the snapshot registry
(`write_snapshot_rid`); `none` models `json.loads(stdout)` raising on the
snapshot-create response (src/app.py:110-112).  Python's `if snapshot_id:`
treats both a missing `id` field and an empty string as falsy. -/
def process_vm (env : Env)
    (resource_id vm_name resource_group disk_id chg_number timestamp user_id : String) :
    Option ((String × String) × List SnapshotRecord) :=
  let _ := resource_id
  let snap_name := snapshot_name chg_number vm_name timestamp
  let r := run_az3 (env.exec (az_snap_cmd snap_name resource_group disk_id user_id))
  if r.2.2 ≠ 0 then
    some ((vm_name, "Failed to create snapshot"), [])
  else
    match env.parseSnap r.1 with
    | none => none
    | some (some snapshot_id) =>
      if snapshot_id ≠ "" then
        some ((vm_name, snap_name),
          [⟨snapshot_id, snap_name, env.expiration_stamp, user_id⟩])
      else
        some ((vm_name, "Failed to extract snapshot ID"), [])
    | some none =>
      some ((vm_name, "Failed to extract snapshot ID"), [])

/-- The sequential detail-fetch loop of `main` (src/app.py:177-193): returns
the `(vm_name, "Failed to get VM details")` entries appended to
`failed_snapshots` and the task argument tuples
`(resource_id, vm_name, resource_group, disk_id)` handed to `process_vm`.
`none` models `json.loads(stdout)` raising on a detail response
(src/app.py:188-190). -/
def detailPhase (env : Env) :
    List (String × String) →
    Option (List (String × String) × List (String × String × String × String))
  | [] => some ([], [])
  | (resource_id, vm_name) :: rest =>
    let r := run_az3 (env.exec (az_vmshow_cmd resource_id))
    if r.2.2 ≠ 0 then
      match detailPhase env rest with
      | none => none
      | some (fs, ts) => some ((vm_name, "Failed to get VM details") :: fs, ts)
    else
      match env.parseVmDetails r.1 with
      | none => none
      | some (resource_group, disk_id) =>
        match detailPhase env rest with
        | none => none
        | some (fs, ts) =>
          some (fs, (resource_id, vm_name, resource_group, disk_id) :: ts)

/-- The fan-out/fan-in snapshot phase (src/app.py:192-195):
`asyncio.gather(*tasks)` returns one `(vm_name, result)` per task in task
order.  Also collects the registry records appended by the workers; their
interleaving across concurrent workers is scheduler-dependent in the source,
so only membership in this list is meaningful. -/
def snapshotPhase (env : Env) (chg_number timestamp user_id : String) :
    List (String × String × String × String) →
    Option (List (String × String) × List SnapshotRecord)
  | [] => some ([], [])
  | (resource_id, vm_name, resource_group, disk_id) :: rest =>
    match process_vm env resource_id vm_name resource_group disk_id
        chg_number timestamp user_id with
    | none => none
    | some (res, regAdd) =>
      match snapshotPhase env chg_number timestamp user_id rest with
      | none => none
      | some (rs, reg) => some (res :: rs, regAdd ++ reg)

/-- One iteration of the per-subscription loop of `main` (src/app.py:164-200):
switch subscription, fetch details, fan out workers, classify each gathered
`(vm_name, result)` by `"Failed" not in result` (src/app.py:196-200).
Returns the additions this group makes to
`(successful_snapshots, failed_snapshots, registry)`. -/
def processGroup (env : Env) (chg_number timestamp user_id subscription_id : String)
    (vms : List (String × String)) :
    Option (List (String × String) × List (String × String) × List SnapshotRecord) :=
  let r := run_az3 (env.exec (az_sub_cmd subscription_id))
  if r.2.2 ≠ 0 then
    some ([], vms.map (fun p => (p.2, "Failed to set subscription")), [])
  else
    match detailPhase env vms with
    | none => none
    | some (fDetail, tasks) =>
      match snapshotPhase env chg_number timestamp user_id tasks with
      | none => none
      | some (results, reg) =>
        some (results.filter (fun p => !(pyIn "Failed" p.2)),
          fDetail ++ results.filter (fun p => pyIn "Failed" p.2),
          reg)

/-- The whole `for subscription_id, vms in grouped_vms.items():` loop
(src/app.py:164-200), accumulating the successful, failed and registry lists
in iteration order. -/
def runGroups (env : Env) (chg_number timestamp user_id : String) :
    Groups →
    Option (List (String × String) × List (String × String) × List SnapshotRecord)
  | [] => some ([], [], [])
  | (subscription_id, vms) :: rest =>
    match processGroup env chg_number timestamp user_id subscription_id vms with
    | none => none
    | some (s1, f1, r1) =>
      match runGroups env chg_number timestamp user_id rest with
      | none => none
      | some (s2, f2, r2) => some (s1 ++ s2, f1 ++ f2, r1 ++ r2)

/-- Outcome of `main` (src/app.py:130-224): either the `{"error": msg}`
dictionary of a fatal run, or the run outcome — `total_vms`, the
`successful_snapshots` and `failed_snapshots` lists written to the summary
file, and the snapshot registry appended during the run. -/
inductive MainResult where
  | fatal (msg : String)
  | ok (total_vms : Nat) (successful_snapshots failed_snapshots : List (String × String))
      (registry : List SnapshotRecord)
deriving DecidableEq, Repr

/-- Embeds `main(host_file, chg_number, ttl_duration, exclude_keywords)`
(src/app.py:130-224).  `ttl_duration` only feeds the expiration stamp, which
`Env.expiration_stamp` models; `none` models an uncaught exception
(malformed resource line in grouping, or a JSON parse error). -/
def main (env : Env) (host_file chg_number : String) (exclude_keywords : List String) :
    Option MainResult :=
  match get_current_user_id env with
  | none =>
    some (.fatal "Failed to retrieve user ID from Azure CLI. Ensure you are logged in with \x27az login\x27.")
  | some user_id =>
    if user_id = "" then
      some (.fatal "Failed to retrieve user ID from Azure CLI. Ensure you are logged in with \x27az login\x27.")
    else
      match extract_vm_info env.inventoryLines host_file env.hostLines exclude_keywords with
      | (_, some err, _) => some (.fatal err)
      | (none, none, _) => some (.fatal "No valid VM information found.")
      | (some vm_list, none, _) =>
        if vm_list.isEmpty then
          some (.fatal "No valid VM information found.")
        else
          match group_vms_by_subscription vm_list with
          | none => none
          | some grouped =>
            match runGroups env chg_number env.run_stamp user_id grouped with
            | none => none
            | some (succ, failed, reg) =>
              some (.ok vm_list.length succ failed reg)

/-- Total number of VMs held in a grouping. -/
def sumLen (groups : Groups) : Nat :=
  (groups.map (fun g => g.2.length)).sum

/-- An attempt script whose every attempt fails with captured output. -/
def constFailScript : Nat → CommandResult :=
  fun _ => ⟨"out", "err", 1⟩

/-- Run with two subscriptions: `S1` switches and snapshots fine, `S2`'s
subscription switch fails. -/
def testEnvC1 : Env where
  exec := fun cmd _ =>
    if cmd = az_user_cmd then ⟨"testuser", "", 0⟩
    else if cmd = az_sub_cmd "S1" then ⟨"", "", 0⟩
    else if cmd = az_vmshow_cmd "/subscriptions/S1/x" then ⟨"D1", "", 0⟩
    else if cmd = az_snap_cmd (snapshot_name "1" "vm1" "TS") "rg1" "disk1" "testuser" then
      ⟨"J1", "", 0⟩
    else ⟨"", "boom", 1⟩
  inventoryLines := some ["/subscriptions/S1/x vm1", "/subscriptions/S2/y vm2"]
  hostLines := some ["vm1", "vm2"]
  parseVmDetails := fun s => if s = "D1" then some ("rg1", "disk1") else none
  parseSnap := fun s => if s = "J1" then some (some "sid1") else none
  expiration_stamp := "2026-10-19"
  run_stamp := "TS"

/-- Run over a single VM named `vmFailed` whose snapshot creation fully
succeeds and returns an `id`. -/
def testEnvC4 : Env where
  exec := fun cmd _ =>
    if cmd = az_user_cmd then ⟨"testuser", "", 0⟩
    else if cmd = az_sub_cmd "S1" then ⟨"", "", 0⟩
    else if cmd = az_vmshow_cmd "/subscriptions/S1/x" then ⟨"D1", "", 0⟩
    else if cmd = az_snap_cmd (snapshot_name "1" "vmFailed" "TS") "rg1" "disk1" "testuser" then
      ⟨"J1", "", 0⟩
    else ⟨"", "boom", 1⟩
  inventoryLines := some ["/subscriptions/S1/x vmFailed"]
  hostLines := some ["vmFailed"]
  parseVmDetails := fun s => if s = "D1" then some ("rg1", "disk1") else none
  parseSnap := fun s => if s = "J1" then some (some "sid1") else none
  expiration_stamp := "2026-10-19"
  run_stamp := "TS"

/-- Environment whose snapshot-create command succeeds but whose response
JSON has no `id` field. -/
def testEnvC5 : Env where
  exec := fun cmd _ =>
    if cmd = az_snap_cmd (snapshot_name "7" "vm1" "TS") "rg1" "disk1" "u1" then ⟨"J0", "", 0⟩
    else ⟨"", "boom", 1⟩
  inventoryLines := some []
  hostLines := some []
  parseVmDetails := fun _ => none
  parseSnap := fun s => if s = "J0" then some none else none
  expiration_stamp := "2026-10-19"
  run_stamp := "TS"

/-- Environment in which every subscription-switch command fails. -/
def testEnvC6 : Env where
  exec := fun cmd _ =>
    if cmd = az_user_cmd then ⟨"testuser", "", 0⟩
    else ⟨"", "boom", 1⟩
  inventoryLines := some ["/subscriptions/S9/a vmA", "/subscriptions/S9/b vmB"]
  hostLines := some ["vmA", "vmB"]
  parseVmDetails := fun _ => none
  parseSnap := fun _ => none
  expiration_stamp := "2026-10-19"
  run_stamp := "TS"

/-- Run in which `vm2`'s inventory line carries the exclusion keyword
`DoNotSnapshot` while `vm1` is snapshotted normally. -/
def testEnvC7 : Env where
  exec := fun cmd _ =>
    if cmd = az_user_cmd then ⟨"testuser", "", 0⟩
    else if cmd = az_sub_cmd "S1" then ⟨"", "", 0⟩
    else if cmd = az_vmshow_cmd "/subscriptions/S1/x" then ⟨"D1", "", 0⟩
    else if cmd = az_snap_cmd (snapshot_name "1" "vm1" "TS") "rg1" "disk1" "testuser" then
      ⟨"J1", "", 0⟩
    else ⟨"", "boom", 1⟩
  inventoryLines := some ["/subscriptions/S1/x vm1", "/subscriptions/S2/y vm2 DoNotSnapshot"]
  hostLines := some ["vm1", "vm2"]
  parseVmDetails := fun s => if s = "D1" then some ("rg1", "disk1") else none
  parseSnap := fun s => if s = "J1" then some (some "sid1") else none
  expiration_stamp := "2026-10-19"
  run_stamp := "TS"

lemma run_az_loop_all_fail (script : Nat → CommandResult) :
    ∀ (rem attempt : Nat),
      (∀ i, attempt ≤ i → i ≤ attempt + rem → (script i).returncode ≠ 0) →
      run_az_loop script attempt rem =
        (("", pyStrip (script (attempt + rem)).stderr,
          (script (attempt + rem)).returncode), attempt + rem + 1)
  | 0, attempt, h => by
    have h0 := h attempt le_rfl (by omega)
    simp [run_az_loop, h0]
  | rem + 1, attempt, h => by
    have h0 := h attempt le_rfl (by omega)
    have ih := run_az_loop_all_fail script rem (attempt + 1)
      (fun i h1 h2 => h i (by omega) (by omega))
    have harith : attempt + 1 + rem = attempt + (rem + 1) := by omega
    rw [harith] at ih
    simp [run_az_loop, h0, ih]

/-- C2 (amended): when every attempt fails, `run_az_command` invokes the
command exactly `max_retries` times and returns — as a value, not an
exception — the empty string for stdout together with the last attempt's
stderr and non-zero exit status, provided `max_retries ≥ 1`. -/
theorem run_az_retries_exhausted (script : Nat → CommandResult) (mr : Nat)
    (hmr : 0 < mr) (hfail : ∀ i, i < mr → (script i).returncode ≠ 0) :
    run_az_command script mr =
      some (("", pyStrip (script (mr - 1)).stderr, (script (mr - 1)).returncode), mr) := by
  obtain ⟨k, rfl⟩ : ∃ k, mr = k + 1 := ⟨mr - 1, by omega⟩
  have := run_az_loop_all_fail script k 0 (fun i _ h2 => hfail i (by omega))
  simp only [run_az_command, this, Nat.zero_add, Nat.add_sub_cancel]

/-- C2 witness: the amended statement at a concrete always-failing script. -/
theorem run_az_retries_exhausted_witness :
    run_az_command constFailScript 3 =
      some (("", pyStrip (constFailScript 2).stderr, (constFailScript 2).returncode), 3) :=
  run_az_retries_exhausted constFailScript 3 (by decide) (fun i _ => by simp [constFailScript])

/-- C2 counterexample: with `max_retries = 3` and a command whose every
attempt exits 1 after printing `"out"`, the executor does NOT return the last
attempt's captured result — the last stdout is replaced by the empty string
(src/app.py:68 returns `""` in the stdout slot). -/
theorem run_az_drops_last_stdout :
    run_az_command constFailScript 3 ≠ some (("out", "err", 1), 3) ∧
    run_az_command constFailScript 3 = some (("", "err", 1), 3) := by
  decide

lemma string_data_append (s t : String) : (s ++ t).data = s.data ++ t.data := by
  cases s
  cases t
  rfl

/-- C9: for a fixed change number and run timestamp, the snapshot-naming
function `RH_\x7bchg\x7d_\x7bvm\x7d_\x7bts\x7d` is injective in the VM name. -/
theorem snapshot_name_inj (chg_number timestamp vmA vmB : String)
    (h : vmA ≠ vmB) :
    snapshot_name chg_number vmA timestamp ≠ snapshot_name chg_number vmB timestamp := by
  intro heq
  apply h
  have hd := congrArg String.data heq
  simp only [snapshot_name, string_data_append, List.append_assoc] at hd
  have h1 := List.append_cancel_left hd
  have h2 := List.append_cancel_left h1
  have h3 := List.append_cancel_left h2
  have h4 := List.append_cancel_right h3
  exact congrArg String.mk h4

/-- C9 witness: two concrete distinct VM names yield distinct snapshot
names. -/
theorem snapshot_name_inj_witness :
    snapshot_name "123" "vm1" "T" ≠ snapshot_name "123" "vm2" "T" :=
  snapshot_name_inj "123" "T" "vm1" "vm2" (by decide)

/-- C3: the Subscription Grouper raises an uncaught exception (modelled as
`none`) on malformed records instead of surfacing a per-record error: a line
that does not split into exactly two tokens raises `ValueError`, and a
resource id with fewer than three `/`-segments raises `IndexError`; a
well-formed line groups normally. -/
theorem group_vms_raises_on_malformed :
    group_vms_by_subscription ["onlyonetoken"] = none ∧
    group_vms_by_subscription ["/subscriptions/S1/x vm1 extratoken"] = none ∧
    group_vms_by_subscription ["a/b vm1"] = none ∧
    group_vms_by_subscription ["/subscriptions/S1/x vm1"] =
      some [("S1", [("/subscriptions/S1/x", "vm1")])] :=
  ⟨by decide, by decide, by decide, by decide⟩

lemma addToGroup_sumLen (g : Groups) (sid : String) (v : String × String) :
    sumLen (addToGroup g sid v) = sumLen g + 1 := by
  induction g with
  | nil => simp [addToGroup, sumLen]
  | cons p rest ih =>
    obtain ⟨k, vs⟩ := p
    by_cases h : k = sid
    · simp [addToGroup, h, sumLen]
      omega
    · simp only [addToGroup, if_neg h, sumLen, List.map_cons, List.sum_cons]
      simp only [sumLen] at ih
      omega

lemma groupAux_sumLen : ∀ (l : List String) (acc g : Groups),
    groupAux acc l = some g → sumLen g = sumLen acc + l.length := by
  intro l
  induction l with
  | nil =>
    intro acc g h
    simp only [groupAux, Option.some.injEq] at h
    subst h
    simp
  | cons line rest ih =>
    intro acc g h
    simp only [groupAux] at h
    split at h
    · split at h
      · have := ih _ g h
        rw [addToGroup_sumLen] at this
        simp [this, List.length_cons]
        omega
      · exact absurd h (by simp)
    · exact absurd h (by simp)

lemma detailPhase_len (env : Env) : ∀ (vms : List (String × String))
    (fs : List (String × String)) (ts : List (String × String × String × String)),
    detailPhase env vms = some (fs, ts) → fs.length + ts.length = vms.length := by
  intro vms
  induction vms with
  | nil =>
    intro fs ts h
    simp only [detailPhase, Option.some.injEq, Prod.mk.injEq] at h
    obtain ⟨h1, h2⟩ := h
    subst h1
    subst h2
    simp
  | cons p rest ih =>
    intro fs ts h
    obtain ⟨resource_id, vm_name⟩ := p
    simp only [detailPhase] at h
    split at h
    · split at h
      · exact absurd h (by simp)
      · rename_i fs' ts' heq
        simp only [Option.some.injEq, Prod.mk.injEq] at h
        obtain ⟨h1, h2⟩ := h
        subst h1
        subst h2
        have := ih fs' ts' heq
        simp only [List.length_cons]
        omega
    · split at h
      · exact absurd h (by simp)
      · split at h
        · exact absurd h (by simp)
        · rename_i fs' ts' heq
          simp only [Option.some.injEq, Prod.mk.injEq] at h
          obtain ⟨h1, h2⟩ := h
          subst h1
          subst h2
          have := ih fs' ts' heq
          simp only [List.length_cons]
          omega

lemma snapshotPhase_len (env : Env) (chg ts uid : String) :
    ∀ (tasks : List (String × String × String × String))
    (rs : List (String × String)) (reg : List SnapshotRecord),
    snapshotPhase env chg ts uid tasks = some (rs, reg) → rs.length = tasks.length := by
  intro tasks
  induction tasks with
  | nil =>
    intro rs reg h
    simp only [snapshotPhase, Option.some.injEq, Prod.mk.injEq] at h
    obtain ⟨h1, h2⟩ := h
    subst h1
    subst h2
    simp
  | cons q rest ih =>
    intro rs reg h
    obtain ⟨rid, vm, rg, disk⟩ := q
    simp only [snapshotPhase] at h
    split at h
    · exact absurd h (by simp)
    · split at h
      · exact absurd h (by simp)
      · rename_i res regAdd _ rs' reg' heq
        simp only [Option.some.injEq, Prod.mk.injEq] at h
        obtain ⟨h1, h2⟩ := h
        subst h1
        subst h2
        have := ih rs' reg' heq
        simp [this]

lemma filter_failed_split (results : List (String × String)) :
    (results.filter (fun p => !pyIn "Failed" p.2)).length +
      (results.filter (fun p => pyIn "Failed" p.2)).length = results.length := by
  induction results with
  | nil => rfl
  | cons a t ih =>
    by_cases h : pyIn "Failed" a.2 = true <;>
      simp only [List.filter, h, Bool.not_true, Bool.not_false, List.length_cons] <;>
      omega

lemma processGroup_len (env : Env) (chg ts uid sid : String)
    (vms : List (String × String)) (s f : List (String × String))
    (reg : List SnapshotRecord)
    (h : processGroup env chg ts uid sid vms = some (s, f, reg)) :
    s.length + f.length = vms.length := by
  simp only [processGroup] at h
  split at h
  · simp only [Option.some.injEq, Prod.mk.injEq] at h
    obtain ⟨h1, h2, h3⟩ := h
    subst h1
    subst h2
    subst h3
    simp
  · split at h
    · exact absurd h (by simp)
    · rename_i fDetail tasks hdet
      split at h
      · exact absurd h (by simp)
      · rename_i results regr hsnap
        simp only [Option.some.injEq, Prod.mk.injEq] at h
        obtain ⟨h1, h2, h3⟩ := h
        subst h1
        subst h2
        subst h3
        have hd := detailPhase_len env vms fDetail tasks hdet
        have hs := snapshotPhase_len env chg ts uid tasks results regr hsnap
        have hp := filter_failed_split results
        simp only [List.length_append]
        omega

lemma runGroups_len (env : Env) (chg ts uid : String) :
    ∀ (groups : Groups) (s f : List (String × String)) (reg : List SnapshotRecord),
    runGroups env chg ts uid groups = some (s, f, reg) →
    s.length + f.length = sumLen groups := by
  intro groups
  induction groups with
  | nil =>
    intro s f reg h
    simp only [runGroups, Option.some.injEq, Prod.mk.injEq] at h
    obtain ⟨h1, h2, h3⟩ := h
    subst h1
    subst h2
    subst h3
    simp [sumLen]
  | cons g rest ih =>
    intro s f reg h
    obtain ⟨sid, vms⟩ := g
    simp only [runGroups] at h
    split at h
    · exact absurd h (by simp)
    · rename_i s1 f1 r1 hpg
      split at h
      · exact absurd h (by simp)
      · rename_i s2 f2 r2 hrest
        simp only [Option.some.injEq, Prod.mk.injEq] at h
        obtain ⟨h1, h2, h3⟩ := h
        subst h1
        subst h2
        subst h3
        have h1 := processGroup_len env chg ts uid sid vms s1 f1 r1 hpg
        have h2 := ih s2 f2 r2 hrest
        simp only [sumLen, List.map_cons, List.sum_cons, List.length_append]
        simp only [sumLen] at h2
        omega

/-- C1: whenever `main` completes a run (authentication and inventory
resolution passed, no uncaught exception), the lengths of the
`successful_snapshots` and `failed_snapshots` lists sum to `total_vms`,
whatever mixture of subscription-switch, detail-fetch and snapshot failures
occurred. -/
theorem main_success_failed_partition (env : Env) (host_file chg_number : String)
    (exclude_keywords : List String) (t : Nat) (s f : List (String × String))
    (reg : List SnapshotRecord)
    (h : main env host_file chg_number exclude_keywords = some (.ok t s f reg)) :
    s.length + f.length = t := by
  simp only [main] at h
  split at h
  · exact absurd h (by simp)
  · split at h
    · exact absurd h (by simp)
    · split at h
      · exact absurd h (by simp)
      · exact absurd h (by simp)
      · rename_i vm_list _
        split at h
        · exact absurd h (by simp)
        · split at h
          · exact absurd h (by simp)
          · rename_i grouped hgroup
            split at h
            · exact absurd h (by simp)
            · rename_i succ failed regr hrun
              simp only [Option.some.injEq, MainResult.ok.injEq] at h
              obtain ⟨h1, h2, h3, h4⟩ := h
              subst h1
              subst h2
              subst h3
              simp only [group_vms_by_subscription] at hgroup
              have hg := groupAux_sumLen _ [] grouped hgroup
              have hr := runGroups_len env chg_number env.run_stamp _ grouped succ failed regr hrun
              have h0 : sumLen ([] : Groups) = 0 := rfl
              rw [h0] at hg
              omega

/-- C1 witness: a run with one successful snapshot and one
subscription-switch failure totals 2 VMs. -/
theorem main_success_failed_partition_witness :
    ([("vm1", "RH_1_vm1_TS")] : List (String × String)).length +
      ([("vm2", "Failed to set subscription")] : List (String × String)).length = 2 :=
  main_success_failed_partition testEnvC1 "hosts.txt" "1" [] 2
    [("vm1", "RH_1_vm1_TS")] [("vm2", "Failed to set subscription")]
    [⟨"sid1", "RH_1_vm1_TS", "2026-10-19", "testuser"⟩] (by decide)

/-- C6: when the subscription-switch command for a group fails after
retries, every VM of the group lands in the failed list with reason
`Failed to set subscription`, nothing is added to the successful list or the
snapshot registry (no snapshot is attempted), and the orchestrator proceeds
to the remaining groups. -/
theorem switch_failure_fails_group (env : Env) (chg ts uid sid : String)
    (vms : List (String × String)) (rest : Groups)
    (h : (run_az3 (env.exec (az_sub_cmd sid))).2.2 ≠ 0) :
    processGroup env chg ts uid sid vms =
      some ([], vms.map (fun p => (p.2, "Failed to set subscription")), []) ∧
    runGroups env chg ts uid ((sid, vms) :: rest) =
      (runGroups env chg ts uid rest).map
        (fun q => (q.1, vms.map (fun p => (p.2, "Failed to set subscription")) ++ q.2.1, q.2.2)) := by
  have h1 : processGroup env chg ts uid sid vms =
      some ([], vms.map (fun p => (p.2, "Failed to set subscription")), []) := by
    simp only [processGroup, if_pos h]
  refine ⟨h1, ?_⟩
  simp only [runGroups, h1]
  cases hr : runGroups env chg ts uid rest with
  | none => rfl
  | some v =>
    obtain ⟨s2, f2, r2⟩ := v
    simp

/-- C6 witness: a two-VM group under an always-failing switch, with no
following groups. -/
theorem switch_failure_fails_group_witness :
    processGroup testEnvC6 "1" "TS" "u" "S9" [("/subscriptions/S9/a", "vmA"), ("/subscriptions/S9/b", "vmB")] =
      some ([], [("/subscriptions/S9/a", "vmA"), ("/subscriptions/S9/b", "vmB")].map
        (fun p => (p.2, "Failed to set subscription")), []) ∧
    runGroups testEnvC6 "1" "TS" "u"
        [("S9", [("/subscriptions/S9/a", "vmA"), ("/subscriptions/S9/b", "vmB")])] =
      (runGroups testEnvC6 "1" "TS" "u" []).map
        (fun q => (q.1, [("/subscriptions/S9/a", "vmA"), ("/subscriptions/S9/b", "vmB")].map
          (fun p => (p.2, "Failed to set subscription")) ++ q.2.1, q.2.2)) := by
  exact switch_failure_fails_group testEnvC6 "1" "TS" "u" "S9"
    [("/subscriptions/S9/a", "vmA"), ("/subscriptions/S9/b", "vmB")] [] (by decide)

/-- C5: when the snapshot-create command succeeds but its JSON response has
no `id` field, `process_vm` returns the failure reason
`Failed to extract snapshot ID` for that VM and appends nothing to the
snapshot registry; the reason contains `Failed`, so `main` classifies the VM
into the failed list. -/
theorem missing_id_reports_failure (env : Env)
    (rid vm rg disk chg ts uid : String)
    (hrc : (run_az3 (env.exec (az_snap_cmd (snapshot_name chg vm ts) rg disk uid))).2.2 = 0)
    (hid : env.parseSnap
      (run_az3 (env.exec (az_snap_cmd (snapshot_name chg vm ts) rg disk uid))).1 = some none) :
    process_vm env rid vm rg disk chg ts uid =
      some ((vm, "Failed to extract snapshot ID"), []) ∧
    pyIn "Failed" "Failed to extract snapshot ID" = true := by
  constructor
  · simp [process_vm, hid, hrc]
  · decide

/-- C5 witness: a concrete environment whose snapshot response JSON lacks
`id`. -/
theorem missing_id_reports_failure_witness :
    process_vm testEnvC5 "/subscriptions/S1/x" "vm1" "rg1" "disk1" "7" "TS" "u1" =
      some (("vm1", "Failed to extract snapshot ID"), []) ∧
    pyIn "Failed" "Failed to extract snapshot ID" = true :=
  missing_id_reports_failure testEnvC5 "/subscriptions/S1/x" "vm1" "rg1" "disk1" "7" "TS" "u1"
    (by decide) (by decide)

lemma resolveHosts_cons_none (invLines kws : List String) (a : String)
    (rest : List String) (hga : get_vm_info a invLines = none) :
    resolveHosts invLines kws (a :: rest) = resolveHosts invLines kws rest := by
  simp [resolveHosts, hga]

lemma resolveHosts_cons_blank (invLines kws : List String) (a : String)
    (rest : List String) (hga : get_vm_info a invLines = some "") :
    resolveHosts invLines kws (a :: rest) = resolveHosts invLines kws rest := by
  simp [resolveHosts, hga]

lemma resolveHosts_cons_excluded (invLines kws : List String) (a vmi : String)
    (rest : List String) (hga : get_vm_info a invLines = some vmi) (hv : vmi ≠ "")
    (hc : (!kws.isEmpty && kws.any (fun k => pyIn (pyLower k) (pyLower vmi))) = true) :
    resolveHosts invLines kws (a :: rest) =
      ((resolveHosts invLines kws rest).1, a :: (resolveHosts invLines kws rest).2) := by
  simp [resolveHosts, hga, hv, hc]

lemma resolveHosts_cons_kept (invLines kws : List String) (a vmi : String)
    (rest : List String) (hga : get_vm_info a invLines = some vmi) (hv : vmi ≠ "")
    (hc : (!kws.isEmpty && kws.any (fun k => pyIn (pyLower k) (pyLower vmi))) = false) :
    resolveHosts invLines kws (a :: rest) =
      (vmi :: (resolveHosts invLines kws rest).1, (resolveHosts invLines kws rest).2) := by
  simp [resolveHosts, hga, hv, hc]

lemma resolveHosts_fst_not_excluded (invLines kws : List String) :
    ∀ (hosts : List String) (x : String), x ∈ (resolveHosts invLines kws hosts).1 →
      (!kws.isEmpty && kws.any (fun k => pyIn (pyLower k) (pyLower x))) = false := by
  intro hosts
  induction hosts with
  | nil => intro x hx; simp [resolveHosts] at hx
  | cons a rest ih =>
    intro x hx
    cases hga : get_vm_info a invLines with
    | none =>
      rw [resolveHosts_cons_none invLines kws a rest hga] at hx
      exact ih x hx
    | some vmi =>
      by_cases hv : vmi = ""
      · subst hv
        rw [resolveHosts_cons_blank invLines kws a rest hga] at hx
        exact ih x hx
      · by_cases hc : (!kws.isEmpty &&
            kws.any (fun k => pyIn (pyLower k) (pyLower vmi))) = true
        · rw [resolveHosts_cons_excluded invLines kws a vmi rest hga hv hc] at hx
          exact ih x hx
        · have hc' := Bool.eq_false_iff.mpr hc
          rw [resolveHosts_cons_kept invLines kws a vmi rest hga hv hc'] at hx
          rcases List.mem_cons.mp hx with rfl | hx'
          · exact hc'
          · exact ih x hx'

lemma resolveHosts_excluded_mem (invLines kws : List String) (h L : String)
    (hres : get_vm_info h invLines = some L) (hL : L ≠ "")
    (hc : (!kws.isEmpty && kws.any (fun k => pyIn (pyLower k) (pyLower L))) = true) :
    ∀ hosts : List String, h ∈ hosts → h ∈ (resolveHosts invLines kws hosts).2 := by
  intro hosts
  induction hosts with
  | nil => intro hmem; cases hmem
  | cons a rest ih =>
    intro hmem
    rcases List.mem_cons.mp hmem with rfl | hmem'
    · rw [resolveHosts_cons_excluded invLines kws h L rest hres hL hc]
      exact List.mem_cons_self _ _
    · cases hga : get_vm_info a invLines with
      | none =>
        rw [resolveHosts_cons_none invLines kws a rest hga]
        exact ih hmem'
      | some vmi =>
        by_cases hv : vmi = ""
        · subst hv
          rw [resolveHosts_cons_blank invLines kws a rest hga]
          exact ih hmem'
        · by_cases hc' : (!kws.isEmpty &&
              kws.any (fun k => pyIn (pyLower k) (pyLower vmi))) = true
          · rw [resolveHosts_cons_excluded invLines kws a vmi rest hga hv hc']
            exact List.mem_cons_of_mem _ (ih hmem')
          · rw [resolveHosts_cons_kept invLines kws a vmi rest hga hv
              (Bool.eq_false_iff.mpr hc')]
            exact ih hmem'

lemma main_total_eq (env : Env) (hf chg : String) (kws : List String)
    (vl ex : List String) (t : Nat) (s f : List (String × String))
    (reg : List SnapshotRecord)
    (hext : extract_vm_info env.inventoryLines hf env.hostLines kws = (some vl, none, ex))
    (h : main env hf chg kws = some (.ok t s f reg)) :
    t = vl.length := by
  simp only [main, hext] at h
  split at h
  · exact absurd h (by simp)
  · split at h
    · exact absurd h (by simp)
    · split at h
      · exact absurd h (by simp)
      · split at h
        · exact absurd h (by simp)
        · split at h
          · exact absurd h (by simp)
          · simp only [Option.some.injEq, MainResult.ok.injEq] at h
            exact h.1.symm

/-- C7: a VM whose matched inventory line (as returned by the inventory
lookup) contains an exclusion keyword case-insensitively is absent from the
resolved VM list, its hostname is recorded in the excluded-VMs diagnostic,
and a completed run's `total_vms` is the length of the resolved list that
omits it. -/
theorem exclusion_absent_and_diagnosed (env : Env) (inv hosts kws : List String)
    (hf chg h L kw : String) (t : Nat) (s f : List (String × String))
    (reg : List SnapshotRecord)
    (hinv : env.inventoryLines = some inv) (hhost : env.hostLines = some hosts)
    (hh : h ∈ hosts) (hres : get_vm_info h inv = some L) (hL : L ≠ "")
    (hkw : kw ∈ kws) (hmatch : pyIn (pyLower kw) (pyLower L) = true)
    (hmain : main env hf chg kws = some (.ok t s f reg)) :
    extract_vm_info (some inv) hf (some hosts) kws =
      (some (resolveHosts inv kws hosts).1, none, (resolveHosts inv kws hosts).2) ∧
    L ∉ (resolveHosts inv kws hosts).1 ∧
    h ∈ (resolveHosts inv kws hosts).2 ∧
    t = (resolveHosts inv kws hosts).1.length := by
  have hkne : kws.isEmpty = false := by
    cases kws with
    | nil => cases hkw
    | cons a as => rfl
  have hc : (!kws.isEmpty && kws.any (fun k => pyIn (pyLower k) (pyLower L))) = true := by
    rw [hkne]
    simp only [Bool.not_false, Bool.true_and]
    exact List.any_eq_true.mpr ⟨kw, hkw, hmatch⟩
  refine ⟨by simp [extract_vm_info], ?_, ?_, ?_⟩
  · intro hmem
    have := resolveHosts_fst_not_excluded inv kws hosts L hmem
    rw [hc] at this
    cases this
  · exact resolveHosts_excluded_mem inv kws h L hres hL hc hosts hh
  · refine main_total_eq env hf chg kws (resolveHosts inv kws hosts).1
      (resolveHosts inv kws hosts).2 t s f reg ?_ hmain
    rw [hinv, hhost]
    simp [extract_vm_info]

/-- C7 witness: keyword `DoNotSnapshot` excludes `vm2` from a completed run
whose remaining VM snapshots successfully. -/
theorem exclusion_absent_and_diagnosed_witness :
    extract_vm_info (some ["/subscriptions/S1/x vm1", "/subscriptions/S2/y vm2 DoNotSnapshot"])
        "hosts.txt" (some ["vm1", "vm2"]) ["DoNotSnapshot"] =
      (some (resolveHosts ["/subscriptions/S1/x vm1", "/subscriptions/S2/y vm2 DoNotSnapshot"]
          ["DoNotSnapshot"] ["vm1", "vm2"]).1, none,
        (resolveHosts ["/subscriptions/S1/x vm1", "/subscriptions/S2/y vm2 DoNotSnapshot"]
          ["DoNotSnapshot"] ["vm1", "vm2"]).2) ∧
    "/subscriptions/S2/y vm2 DoNotSnapshot" ∉
      (resolveHosts ["/subscriptions/S1/x vm1", "/subscriptions/S2/y vm2 DoNotSnapshot"]
        ["DoNotSnapshot"] ["vm1", "vm2"]).1 ∧
    "vm2" ∈ (resolveHosts ["/subscriptions/S1/x vm1", "/subscriptions/S2/y vm2 DoNotSnapshot"]
        ["DoNotSnapshot"] ["vm1", "vm2"]).2 ∧
    1 = (resolveHosts ["/subscriptions/S1/x vm1", "/subscriptions/S2/y vm2 DoNotSnapshot"]
        ["DoNotSnapshot"] ["vm1", "vm2"]).1.length :=
  exclusion_absent_and_diagnosed testEnvC7
    ["/subscriptions/S1/x vm1", "/subscriptions/S2/y vm2 DoNotSnapshot"]
    ["vm1", "vm2"] ["DoNotSnapshot"] "hosts.txt" "1" "vm2"
    "/subscriptions/S2/y vm2 DoNotSnapshot" "DoNotSnapshot" 1
    [("vm1", "RH_1_vm1_TS")] []
    [⟨"sid1", "RH_1_vm1_TS", "2026-10-19", "testuser"⟩]
    (by decide) (by decide) (by decide) (by decide) (by decide) (by decide)
    (by decide) (by decide)

lemma resolveHosts_skip (invLines kws : List String) (h : String)
    (hmiss : get_vm_info h invLines = none) :
    ∀ pre post, resolveHosts invLines kws (pre ++ h :: post) =
      resolveHosts invLines kws (pre ++ post) := by
  intro pre
  induction pre with
  | nil =>
    intro post
    rw [List.nil_append, List.nil_append, resolveHosts_cons_none invLines kws h post hmiss]
  | cons a pre' ih =>
    intro post
    rw [List.cons_append, List.cons_append]
    cases hga : get_vm_info a invLines with
    | none =>
      rw [resolveHosts_cons_none invLines kws a (pre' ++ h :: post) hga,
        resolveHosts_cons_none invLines kws a (pre' ++ post) hga, ih post]
    | some vmi =>
      by_cases hv : vmi = ""
      · subst hv
        rw [resolveHosts_cons_blank invLines kws a (pre' ++ h :: post) hga,
          resolveHosts_cons_blank invLines kws a (pre' ++ post) hga, ih post]
      · by_cases hc : (!kws.isEmpty &&
            kws.any (fun k => pyIn (pyLower k) (pyLower vmi))) = true
        · rw [resolveHosts_cons_excluded invLines kws a vmi (pre' ++ h :: post) hga hv hc,
            resolveHosts_cons_excluded invLines kws a vmi (pre' ++ post) hga hv hc, ih post]
        · rw [resolveHosts_cons_kept invLines kws a vmi (pre' ++ h :: post) hga hv
              (Bool.eq_false_iff.mpr hc),
            resolveHosts_cons_kept invLines kws a vmi (pre' ++ post) hga hv
              (Bool.eq_false_iff.mpr hc), ih post]

/-- C8: a hostname with no matching inventory line is skipped — removing it
from the host list leaves the resolution result unchanged — and the
resolution as a whole fails (returns an error) exactly when the inventory
file or the host-list file cannot be opened. -/
theorem unmatched_hostname_skipped (inv : List String) (hf h : String)
    (pre post kws : List String) (invO hostO : Option (List String))
    (hmiss : get_vm_info h inv = none) :
    extract_vm_info (some inv) hf (some (pre ++ h :: post)) kws =
      extract_vm_info (some inv) hf (some (pre ++ post)) kws ∧
    ((extract_vm_info invO hf hostO kws).2.1 ≠ none ↔ invO = none ∨ hostO = none) := by
  constructor
  · simp [extract_vm_info, resolveHosts_skip inv kws h hmiss]
  · cases invO <;> cases hostO <;> simp [extract_vm_info]

/-- C8 witness: hostname `ghost` matches nothing and is skipped; with both
files present no error is returned. -/
theorem unmatched_hostname_skipped_witness :
    extract_vm_info (some ["/subscriptions/S1/x vm1"]) "hosts.txt"
        (some (["vm1"] ++ "ghost" :: [])) [] =
      extract_vm_info (some ["/subscriptions/S1/x vm1"]) "hosts.txt" (some (["vm1"] ++ [])) [] ∧
    ((extract_vm_info (some ["/subscriptions/S1/x vm1"]) "hosts.txt"
        (some ["vm1"]) []).2.1 ≠ none ↔
      (some ["/subscriptions/S1/x vm1"] : Option (List String)) = none ∨
        (some ["vm1"] : Option (List String)) = none) :=
  unmatched_hostname_skipped ["/subscriptions/S1/x vm1"] "hosts.txt" "ghost"
    ["vm1"] [] [] (some ["/subscriptions/S1/x vm1"]) (some ["vm1"]) (by decide)

/-- C4: the snapshot-create command for the VM named `vmFailed` succeeds and
its response carries an `id`, so a SnapshotRecord is appended to the
registry — but the `(vmName, snapshotName)` pair lands in the FAILED list,
not the succeeded list, because `main` classifies results by the substring
test `"Failed" not in result` and the snapshot name contains the VM name. -/
theorem success_with_failed_in_name_misclassified :
    main testEnvC4 "hosts.txt" "1" [] =
      some (.ok 1 [] [("vmFailed", snapshot_name "1" "vmFailed" "TS")]
        [⟨"sid1", snapshot_name "1" "vmFailed" "TS", "2026-10-19", "testuser"⟩]) ∧
    pyIn "Failed" (snapshot_name "1" "vmFailed" "TS") = true :=
  ⟨by decide, by decide⟩

lemma pyIn_empty_left (hay : String) : pyIn "" hay = true := by
  unfold pyIn
  cases hay.data with
  | nil => rfl
  | cons c t => simp [containsSub, List.isPrefixOf]

lemma get_vm_info_empty_hostname (L : String) (rest : List String) :
    get_vm_info "" (L :: rest) = some (pyStrip L) := by
  unfold get_vm_info
  rw [List.find?_cons_of_pos _ (pyIn_empty_left L)]

lemma resolveHosts_blank_mem (L : String) (rest : List String)
    (hL : pyStrip L ≠ "") :
    ∀ pre post, pyStrip L ∈ (resolveHosts (L :: rest) [] (pre ++ "" :: post)).1 := by
  intro pre
  induction pre with
  | nil =>
    intro post
    rw [List.nil_append,
      resolveHosts_cons_kept (L :: rest) [] "" (pyStrip L) post
        (get_vm_info_empty_hostname L rest) hL rfl]
    exact List.mem_cons_self _ _
  | cons a pre' ih =>
    intro post
    rw [List.cons_append]
    cases hga : get_vm_info a (L :: rest) with
    | none =>
      rw [resolveHosts_cons_none (L :: rest) [] a (pre' ++ "" :: post) hga]
      exact ih post
    | some vmi =>
      by_cases hv : vmi = ""
      · subst hv
        rw [resolveHosts_cons_blank (L :: rest) [] a (pre' ++ "" :: post) hga]
        exact ih post
      · rw [resolveHosts_cons_kept (L :: rest) [] a vmi (pre' ++ "" :: post) hga hv rfl]
        exact List.mem_cons_of_mem _ (ih post)

/-- C10 (amended): an empty host-list line resolves against the FIRST
inventory line (every line contains the empty string), and when that first
line is non-blank after stripping (and no exclusion keyword is given) the
stripped line enters the resolved VM list; when the first inventory line is
blank, the match strips to the empty string, which is falsy, and the blank
hostname is skipped as not found instead. -/
theorem blank_host_line_resolves (L : String) (rest : List String) (hf : String)
    (pre post : List String) (hL : pyStrip L ≠ "") :
    get_vm_info "" (L :: rest) = some (pyStrip L) ∧
    pyStrip L ∈ (resolveHosts (L :: rest) [] (pre ++ "" :: post)).1 ∧
    extract_vm_info (some (L :: rest)) hf (some (pre ++ "" :: post)) [] =
      (some (resolveHosts (L :: rest) [] (pre ++ "" :: post)).1, none,
        (resolveHosts (L :: rest) [] (pre ++ "" :: post)).2) :=
  ⟨get_vm_info_empty_hostname L rest, resolveHosts_blank_mem L rest hL pre post,
    by simp [extract_vm_info]⟩

/-- C10 witness: a blank host line against an inventory whose first line is
a real VM line yields that line as a resolved record. -/
theorem blank_host_line_resolves_witness :
    get_vm_info "" ["/subscriptions/S1/x vm1"] = some (pyStrip "/subscriptions/S1/x vm1") ∧
    pyStrip "/subscriptions/S1/x vm1" ∈
      (resolveHosts ["/subscriptions/S1/x vm1"] [] ([] ++ "" :: [])).1 ∧
    extract_vm_info (some ["/subscriptions/S1/x vm1"]) "hosts.txt" (some ([] ++ "" :: [])) [] =
      (some (resolveHosts ["/subscriptions/S1/x vm1"] [] ([] ++ "" :: [])).1, none,
        (resolveHosts ["/subscriptions/S1/x vm1"] [] ([] ++ "" :: [])).2) :=
  blank_host_line_resolves "/subscriptions/S1/x vm1" [] "hosts.txt" [] [] (by decide)

/-- C10 counterexample: with a non-empty inventory whose FIRST line is
blank, the empty hostname matches that blank line, the match strips to the
falsy empty string, and the resolver yields NO resolved VM record — the
claim's universally quantified statement fails at this input. -/
theorem blank_first_line_not_resolved :
    extract_vm_info (some ["", "/subscriptions/S1/x vm1"]) "hosts.txt" (some [""]) [] =
      (some [], none, []) ∧
    get_vm_info "" ["", "/subscriptions/S1/x vm1"] = some "" :=
  ⟨by decide, by decide⟩

end App
